import Mathlib

/-!
Verification of the README/workflow generator `cli/readme.py` of the
azureml-examples repository.

The generator is a one-shot batch program over a static file tree, so it is
embedded shallowly as pure functions:

* a file tree is a `List (String × String)` of (path, content) pairs, with
  paths written with forward slashes; the embedding fixes `os.sep = "/"`
  (the POSIX platform the CI generator runs on), so the Python expression
  `p.replace(os.sep, "/")` is transcribed as `pyReplace p "/" "/"` and shown
  to be the identity;
* Python string primitives (`in`, `replace`, `split`, `strip`, slicing) are
  re-implemented on `List Char` with explicit fuel so that every definition
  is structurally recursive and kernel-evaluable;
* `glob.glob(pat, recursive=...)` is modelled as filtering the tree by a
  glob matcher (components with `*` wildcards, `**` matching any number of
  components, hidden names excluded) followed by `sorted`, which is modelled
  by insertion sort with the code-point lexicographic order (the order used
  by Python string comparison);
* `hashlib.sha512` is implemented in full (FIPS 180-4) and validated below
  against the standard `"abc"` test vector;
* the single call to `random.randrange(1000, 9999)` per endpoint is made an
  explicit `Nat` parameter (the draw), threaded through `main` as a stream
  of draws indexed by endpoint position;
* notebook normalization (`modify_notebooks`) rewrites `.ipynb` files only;
  no README or workflow output reads those files, so it is not modelled.
-/

/-! ### Python string primitives on character lists -/

/-- Boolean lexicographic comparison of character lists by code point.
This is the order Python uses to compare `str` values, hence the order
realized by `sorted(...)` in the generator. -/
def lexLeB : List Char → List Char → Bool
  | [], _ => true
  | _ :: _, [] => false
  | a :: as, b :: bs =>
    if a.toNat < b.toNat then true
    else if b.toNat < a.toNat then false
    else lexLeB as bs

/-- Lexicographic less-or-equal on strings (Python string order). -/
def strLe (s t : String) : Bool := lexLeB s.data t.data

/-- The proposition form of `strLe`, used for sortedness statements. -/
def strLeP (s t : String) : Prop := strLe s t = true

instance : DecidableRel strLeP := fun s t => by
  unfold strLeP; infer_instance

/-- Contiguous-substring test: `infixB n h = true` iff `n` occurs
contiguously in `h`.  This is the semantics of the Python operator
`n in h` on strings. -/
def infixB : List Char → List Char → Bool
  | n, [] => n.isEmpty
  | n, c :: cs => n.isPrefixOf (c :: cs) || infixB n cs

/-- Python `needle in hay` on strings. -/
def pyContains (hay needle : String) : Bool := infixB needle.data hay.data

/-- Fuelled core of Python `str.replace`: replaces non-overlapping
occurrences of `pat` left to right.  The fuel is at least the length of the
list at every call, so the fuel-exhausted branch is never taken for the
wrapper below; returning the input there keeps the function total. -/
def replaceCharsF (pat repl : List Char) : Nat → List Char → List Char
  | _, [] => []
  | 0, l => l
  | fuel + 1, c :: cs =>
    if !pat.isEmpty && pat.isPrefixOf (c :: cs) then
      repl ++ replaceCharsF pat repl fuel (List.drop pat.length (c :: cs))
    else
      c :: replaceCharsF pat repl fuel cs

/-- Python `s.replace(pat, repl)` (all non-overlapping occurrences,
left to right; `pat` nonempty in every use made by the generator). -/
def pyReplace (s pat repl : String) : String :=
  ⟨replaceCharsF pat.data repl.data s.data.length s.data⟩

/-- Fuelled core of Python `str.split(sep)` for a nonempty separator:
`cur` is the reversed current chunk.  The result list is always nonempty. -/
def splitCharsF (sep : List Char) : Nat → List Char → List Char → List (List Char)
  | 0, cur, _ => [cur.reverse]
  | _ + 1, cur, [] => [cur.reverse]
  | fuel + 1, cur, c :: cs =>
    if sep.isPrefixOf (c :: cs) then
      cur.reverse :: splitCharsF sep fuel [] (List.drop sep.length (c :: cs))
    else
      splitCharsF sep fuel (c :: cur) cs

/-- Python `s.split(sep)` (nonempty `sep`). -/
def pySplit (s sep : String) : List String :=
  (splitCharsF sep.data (s.data.length + 1) [] s.data).map (fun l => ⟨l⟩)

/-- Python whitespace as stripped by `str.strip()`. -/
def isPyWs (c : Char) : Bool :=
  (c == ' ') || (c == '\t') || (c == '\n') || (c == '\r') || (c == '\x0b') || (c == '\x0c')

/-- Python `s.strip()`. -/
def pyStrip (s : String) : String :=
  ⟨((s.data.dropWhile isPyWs).reverse.dropWhile isPyWs).reverse⟩

/-- Python slice `s[-n:]`: the last `n` characters (all of `s` when it is
shorter than `n`). -/
def takeLastN (n : Nat) (s : String) : String := ⟨s.data.drop (s.data.length - n)⟩

/-- Joining with a separator, as in `os.sep.join(...)` (with `os.sep = "/"`). -/
def joinSep (sep : String) : List String → String
  | [] => ""
  | [x] => x
  | x :: y :: xs => x ++ sep ++ joinSep sep (y :: xs)

/-- Python `sorted(...)` on strings: a stable sort by `strLe`, modelled by
insertion sort so that it is kernel-evaluable. -/
def pySortStr (l : List String) : List String := List.insertionSort strLeP l

/-! ### Glob matching

Models CPython `glob.glob(pattern, recursive=...)` restricted to what the
generator uses: `/`-separated relative patterns whose components are either
literal text with `*` wildcards or the recursive component `**` (matching
any number of components, including zero); components with a wildcard do not
match names starting with a dot. -/

/-- Fuelled `fnmatch` for a single pattern component containing only literal
characters and `*` wildcards.  The fuel exceeds the maximal recursion depth
`p.length + s.length` at the wrapper, so the `0` branch is never taken. -/
def segMatchF : Nat → List Char → List Char → Bool
  | 0, _, _ => false
  | fuel + 1, p, s =>
    match p, s with
    | [], [] => true
    | [], _ :: _ => false
    | '*' :: ps, [] => segMatchF fuel ps []
    | '*' :: ps, c :: cs => segMatchF fuel ps (c :: cs) || segMatchF fuel ('*' :: ps) cs
    | p0 :: ps, [] => false && (p0 :: ps).isEmpty
    | p0 :: ps, c :: cs => p0 == c && segMatchF fuel ps cs

/-- One pattern component against one path component, with the glob rule
that a component whose pattern does not start with a dot never matches a
name starting with a dot. -/
def compMatch (p s : List Char) : Bool :=
  if (s.headD ' ' == '.') && !(p.headD ' ' == '.') then false
  else segMatchF (p.length + s.length + 1) p s

/-- Fuelled matching of a component-pattern list against a component list;
`**` matches zero or more (non-hidden) components. -/
def globSegsF : Nat → List (List Char) → List (List Char) → Bool
  | 0, _, _ => false
  | fuel + 1, ps, ss =>
    match ps, ss with
    | [], [] => true
    | [], _ :: _ => false
    | p :: pr, ss =>
      if p == ['*', '*'] then
        globSegsF fuel pr ss ||
          (match ss with
           | [] => false
           | s :: sr => !(s.headD ' ' == '.') && globSegsF fuel (p :: pr) sr)
      else
        match ss with
        | [] => false
        | s :: sr => compMatch p s && globSegsF fuel pr sr

/-- Does relative path `path` match glob pattern `pat`? -/
def globMatch (pat path : String) : Bool :=
  let ps := (pySplit pat "/").map String.data
  let ss := (pySplit path "/").map String.data
  globSegsF (ps.length + ss.length + 1) ps ss

/-- `sorted(glob.glob(pat, ...))` over the tree with file-path list `files`:
the matching paths in Python string order. -/
def pyGlobSorted (pat : String) (files : List String) : List String :=
  pySortStr (files.filter (fun p => globMatch pat p))

/-- `glob.glob(pat, ...)` before sorting, used where the source sorts a
concatenation of two glob results (the endpoint deployment discovery). -/
def pyGlobRaw (pat : String) (files : List String) : List String :=
  files.filter (fun p => globMatch pat p)

/-! ### SHA-512 (`hashlib.sha512`), FIPS 180-4 -/

/-- `2 ^ 64`, the modulus of SHA-512 word arithmetic. -/
def M64 : Nat := 18446744073709551616

def add64 (a b : Nat) : Nat := (a + b) % M64

def rotr64 (n x : Nat) : Nat := x / 2 ^ n + x % 2 ^ n * 2 ^ (64 - n)

def shr64 (n x : Nat) : Nat := x / 2 ^ n

def not64 (x : Nat) : Nat := Nat.xor x (M64 - 1)

def bigS0 (x : Nat) : Nat := Nat.xor (Nat.xor (rotr64 28 x) (rotr64 34 x)) (rotr64 39 x)

def bigS1 (x : Nat) : Nat := Nat.xor (Nat.xor (rotr64 14 x) (rotr64 18 x)) (rotr64 41 x)

def smallS0 (x : Nat) : Nat := Nat.xor (Nat.xor (rotr64 1 x) (rotr64 8 x)) (shr64 7 x)

def smallS1 (x : Nat) : Nat := Nat.xor (Nat.xor (rotr64 19 x) (rotr64 61 x)) (shr64 6 x)

def chF (e f g : Nat) : Nat := Nat.xor (Nat.land e f) (Nat.land (not64 e) g)

def majF (a b c : Nat) : Nat :=
  Nat.xor (Nat.xor (Nat.land a b) (Nat.land a c)) (Nat.land b c)

/-- The 80 SHA-512 round constants (fractional parts of the cube roots of
the first 80 primes, as 64-bit words). -/
def shaK : List Nat := [4794697086780616226, 8158064640168781261, 13096744586834688815, 16840607885511220156, 4131703408338449720, 6480981068601479193, 10538285296894168987, 12329834152419229976, 15566598209576043074, 1334009975649890238, 2608012711638119052, 6128411473006802146, 8268148722764581231, 9286055187155687089, 11230858885718282805, 13951009754708518548, 16472876342353939154, 17275323862435702243, 1135362057144423861, 2597628984639134821, 3308224258029322869, 5365058923640841347, 6679025012923562964, 8573033837759648693, 10970295158949994411, 12119686244451234320, 12683024718118986047, 13788192230050041572, 14330467153632333762, 15395433587784984357, 489312712824947311, 1452737877330783856, 2861767655752347644, 3322285676063803686, 5560940570517711597, 5996557281743188959, 7280758554555802590, 8532644243296465576, 9350256976987008742, 10552545826968843579, 11727347734174303076, 12113106623233404929, 14000437183269869457, 14369950271660146224, 15101387698204529176, 15463397548674623760, 17586052441742319658, 1182934255886127544, 1847814050463011016, 2177327727835720531, 2830643537854262169, 3796741975233480872, 4115178125766777443, 5681478168544905931, 6601373596472566643, 7507060721942968483, 8399075790359081724, 8693463985226723168, 9568029438360202098, 10144078919501101548, 10430055236837252648, 11840083180663258601, 13761210420658862357, 14299343276471374635, 14566680578165727644, 15097957966210449927, 16922976911328602910, 17689382322260857208, 500013540394364858, 748580250866718886, 1242879168328830382, 1977374033974150939, 2944078676154940804, 3659926193048069267, 4368137639120453308, 4836135668995329356, 5532061633213252278, 6448918945643986474, 6902733635092675308, 7801388544844847127]

/-- The SHA-512 initial hash value (fractional parts of the square roots of
the first 8 primes, as 64-bit words). -/
def shaH0 : List Nat := [7640891576956012808, 13503953896175478587, 4354685564936845355, 11912009170470909681, 5840696475078001361, 11170449401992604703, 2270897969802886507, 6620516959819538809]

/-- Big-endian byte-list to natural number. -/
def bytesToBE (l : List Nat) : Nat := l.foldl (fun acc b => acc * 256 + b) 0

/-- The `k` big-endian bytes of `x`. -/
def beBytes (k : Nat) (x : Nat) : List Nat :=
  (List.range k).map (fun i => x / 256 ^ (k - 1 - i) % 256)

/-- SHA-512 message padding: `0x80`, zeros to 112 mod 128, and the bit
length as a 16-byte big-endian integer. -/
def shaPad (msg : List Nat) : List Nat :=
  let len := msg.length
  let padZeros := (128 + 111 - len % 128) % 128
  msg ++ [128] ++ List.replicate padZeros 0 ++ beBytes 16 (8 * len)

/-- Group a byte list into big-endian 64-bit words. -/
def chunkWords : List Nat → List Nat
  | b0 :: b1 :: b2 :: b3 :: b4 :: b5 :: b6 :: b7 :: rest =>
    bytesToBE [b0, b1, b2, b3, b4, b5, b6, b7] :: chunkWords rest
  | _ => []

/-- Split a padded byte list into `n` blocks of 16 words. -/
def chunkBlocks : Nat → List Nat → List (List Nat)
  | 0, _ => []
  | _ + 1, [] => []
  | n + 1, l => chunkWords (l.take 128) :: chunkBlocks n (l.drop 128)

/-- One step of the message-schedule extension `W[t] = s1(W[t-2]) + W[t-7]
+ s0(W[t-15]) + W[t-16]`. -/
def extendSched (w : List Nat) (_ : Nat) : List Nat :=
  let g := fun i => w.getD (w.length - i) 0
  w ++ [add64 (add64 (smallS1 (g 2)) (g 7)) (add64 (smallS0 (g 15)) (g 16))]

/-- The 80-word message schedule of one block. -/
def msgSched (block : List Nat) : List Nat := (List.range 64).foldl extendSched block

/-- One SHA-512 round on the working variables. -/
def roundStep : (Nat × Nat × Nat × Nat × Nat × Nat × Nat × Nat) → Nat × Nat →
    (Nat × Nat × Nat × Nat × Nat × Nat × Nat × Nat)
  | (a, b, c, d, e, f, g, h), (kt, wt) =>
    let t1 := add64 (add64 h (bigS1 e)) (add64 (chF e f g) (add64 kt wt))
    let t2 := add64 (bigS0 a) (majF a b c)
    (add64 t1 t2, a, b, c, add64 d t1, e, f, g)

/-- The SHA-512 compression function. -/
def compress (hs : List Nat) (block : List Nat) : List Nat :=
  let w := msgSched block
  let init := (hs.getD 0 0, hs.getD 1 0, hs.getD 2 0, hs.getD 3 0,
               hs.getD 4 0, hs.getD 5 0, hs.getD 6 0, hs.getD 7 0)
  let r := (shaK.zip w).foldl roundStep init
  match r with
  | (a, b, c, d, e, f, g, h) =>
    [add64 (hs.getD 0 0) a, add64 (hs.getD 1 0) b, add64 (hs.getD 2 0) c,
     add64 (hs.getD 3 0) d, add64 (hs.getD 4 0) e, add64 (hs.getD 5 0) f,
     add64 (hs.getD 6 0) g, add64 (hs.getD 7 0) h]

/-- SHA-512 digest of a byte list, as the list of 8 hash words. -/
def sha512Words (msg : List Nat) : List Nat :=
  let padded := shaPad msg
  (chunkBlocks (padded.length / 128) padded).foldl compress shaH0

/-- The digest interpreted as one large integer; this is the Python value
`int(hashlib.sha512(data).hexdigest(), 16)`. -/
def sha512Int (msg : List Nat) : Nat :=
  (sha512Words msg).foldl (fun acc w => acc * M64 + w) 0

/-- UTF-8 encoding of one character (the semantics of Python
`str.encode()`). -/
def utf8Bytes (c : Char) : List Nat :=
  let n := c.toNat
  if n < 128 then [n]
  else if n < 2048 then [192 + n / 64, 128 + n % 64]
  else if n < 65536 then [224 + n / 4096, 128 + n / 64 % 64, 128 + n % 64]
  else [240 + n / 262144, 128 + n / 4096 % 64, 128 + n / 64 % 64, 128 + n % 64]

/-- Python `s.encode()`: the UTF-8 bytes of `s`. -/
def strBytes (s : String) : List Nat := s.data.flatMap utf8Bytes

/- Validation of the SHA-512 embedding against the standard test vector
for `"abc"` (FIPS 180-4, also what `hashlib.sha512(b"abc")` returns). -/
set_option maxRecDepth 10000 in
example : sha512Int (strBytes "abc") = 11610554759577678887058616627522426787358414133166247019097754655123425531747192578669846860198531688061507751898313498051436198428987376028989280584770719 := by decide

/-! ### Constants of `readme.py` (lines 11-64) -/

def EXCLUDED_JOBS : List String :=
  ["java", "spark-job-component", "storage_pe", "user-assigned-identity"]

def EXCLUDED_ENDPOINTS : List String :=
  ["1-uai-create-endpoint", "1-sai-create-endpoint", "tfserving-endpoint"]

def EXCLUDED_DEPLOYMENTS : List String :=
  ["minimal-multimodel-deployment", "minimal-single-model-conda-in-dockerfile-deployment",
   "mlflow-deployment", "r-deployment", "torchserve-deployment", "triton-cc-deployment",
   "2-sai-deployment", "kubernetes-green-deployment"]

def EXCLUDED_RESOURCES : List String :=
  ["workspace", "datastore", "vm-attach", "instance", "connections",
   "compute/cluster-user-identity", "compute/attached-spark",
   "compute/attached-spark-system-identity", "compute/attached-spark-user-identity",
   "registry"]

def EXCLUDED_ASSETS : List String := ["conda-yamls", "mlflow-models"]

def EXCLUDED_SCHEDULES : List String := []

def EXCLUDED_SCRIPTS : List String :=
  ["setup", "cleanup", "run-job", "run-pipeline-job-with-registry-components",
   "deploy-custom-container-multimodel-minimal", "run-pipeline-jobs"]

def READONLY_HEADER : String :=
  "# This code is autogenerated.\n# Code is generated by running custom script: python3 readme.py\n# Any manual changes to this file may cause incorrect behavior.\n# Any manual changes will be overwritten if the code is regenerated.\n"

def CREDENTIALS : String := "$\x7b\x7bsecrets.AZUREML_CREDENTIALS\x7d\x7d"

def BRANCH : String := "main"

def GITHUB_WORKSPACE : String := "$\x7b\x7b github.workspace \x7d\x7d"

def GITHUB_CONCURRENCY_GROUP : String :=
  "$\x7b\x7b github.workflow \x7d\x7d-$\x7b\x7b github.event.pull_request.number || github.ref \x7d\x7d"

def hours_between_runs : Nat := 12

/-! ### Discovery and filtering (`main`, lines 68-157) -/

/-- The ten job glob patterns, in the order they are concatenated
(lines 76-91). -/
def jobPatterns : List String :=
  ["jobs/**/*job*.yml", "jobs/basics/*.yml", "jobs/*/basics/**/*job*.yml",
   "jobs/pipelines/**/*pipeline*.yml", "jobs/spark/*.yml",
   "jobs/automl-standalone-jobs/**/cli-automl-*.yml",
   "jobs/pipelines-with-components/**/*pipeline*.yml",
   "jobs/automl-standalone-jobs/**/*cli-automl*.yml",
   "responsible-ai/**/cli-*.yml", "jobs/parallel/**/*pipeline*.yml"]

/-- The concatenation of the ten individually sorted job glob results
(lines 76-91); no global re-sort and no deduplication is applied. -/
def jobsRaw (files : List String) : List String :=
  (jobPatterns.map (fun pat => pyGlobSorted pat files)).flatten

/-- The job paths surviving the exclusion filter (lines 92-96); note the
filter tests the raw path (`excluded in job`). -/
def jobsSurvivors (files : List String) : List String :=
  (jobsRaw files).filter (fun job => !(EXCLUDED_JOBS.any (fun e => pyContains job e)))

/-- The discovered job items: surviving paths with every `.yml` occurrence
removed (line 93). -/
def jobsItems (files : List String) : List String :=
  (jobsSurvivors files).map (fun job => pyReplace job ".yml" "")

/-- Registry-component job discovery (lines 98-107); the exclusion filter
normalizes with `job.replace(os.sep, "/")`. -/
def registryRaw (files : List String) : List String :=
  pyGlobSorted "jobs/pipelines-with-components/basics/**/*pipeline*.yml" files

def registrySurvivors (files : List String) : List String :=
  (registryRaw files).filter
    (fun job => !(EXCLUDED_JOBS.any (fun e => pyContains (pyReplace job "/" "/") e)))

def registryItems (files : List String) : List String :=
  (registrySurvivors files).map (fun job => pyReplace job ".yml" "")

/-- Endpoint discovery (lines 110-117). -/
def endpointsRaw (files : List String) : List String :=
  pyGlobSorted "endpoints/**/*endpoint.yml" files

def endpointsSurvivors (files : List String) : List String :=
  (endpointsRaw files).filter
    (fun p => !(EXCLUDED_ENDPOINTS.any (fun e => pyContains (pyReplace p "/" "/") e)))

def endpointsItems (files : List String) : List String :=
  (endpointsSurvivors files).map (fun p => pyReplace p ".yml" "")

/-- Resource discovery (lines 120-127). -/
def resourcesRaw (files : List String) : List String :=
  pyGlobSorted "resources/**/*.yml" files

def resourcesSurvivors (files : List String) : List String :=
  (resourcesRaw files).filter
    (fun p => !(EXCLUDED_RESOURCES.any (fun e => pyContains (pyReplace p "/" "/") e)))

def resourcesItems (files : List String) : List String :=
  (resourcesSurvivors files).map (fun p => pyReplace p ".yml" "")

/-- Asset discovery (lines 130-137). -/
def assetsRaw (files : List String) : List String :=
  pyGlobSorted "assets/**/*.yml" files

def assetsSurvivors (files : List String) : List String :=
  (assetsRaw files).filter
    (fun p => !(EXCLUDED_ASSETS.any (fun e => pyContains (pyReplace p "/" "/") e)))

def assetsItems (files : List String) : List String :=
  (assetsSurvivors files).map (fun p => pyReplace p ".yml" "")

/-- Script discovery (lines 140-147); top-level `*.sh`, stripped of `.sh`. -/
def scriptsRaw (files : List String) : List String :=
  pyGlobSorted "*.sh" files

def scriptsSurvivors (files : List String) : List String :=
  (scriptsRaw files).filter
    (fun p => !(EXCLUDED_SCRIPTS.any (fun e => pyContains (pyReplace p "/" "/") e)))

def scriptsItems (files : List String) : List String :=
  (scriptsSurvivors files).map (fun p => pyReplace p ".sh" "")

/-- Schedule discovery (lines 150-157). -/
def schedulesRaw (files : List String) : List String :=
  pyGlobSorted "schedules/**/*schedule.yml" files

def schedulesSurvivors (files : List String) : List String :=
  (schedulesRaw files).filter
    (fun p => !(EXCLUDED_SCHEDULES.any (fun e => pyContains (pyReplace p "/" "/") e)))

def schedulesItems (files : List String) : List String :=
  (schedulesSurvivors files).map (fun p => pyReplace p ".yml" "")

/-- The discovery categories of the generator. -/
inductive Category where
  | job | registryJob | endpoint | resource | asset | script | schedule
deriving DecidableEq

/-- The exclusion list of each category. -/
def excludedOf : Category → List String
  | .job => EXCLUDED_JOBS
  | .registryJob => EXCLUDED_JOBS
  | .endpoint => EXCLUDED_ENDPOINTS
  | .resource => EXCLUDED_RESOURCES
  | .asset => EXCLUDED_ASSETS
  | .script => EXCLUDED_SCRIPTS
  | .schedule => EXCLUDED_SCHEDULES

/-- The surviving (pre-strip) path list of each category; the generator
emits exactly one workflow document and one README row per entry of these
lists (after extension stripping). -/
def survivorsOf : Category → List String → List String
  | .job => jobsSurvivors
  | .registryJob => registrySurvivors
  | .endpoint => endpointsSurvivors
  | .resource => resourcesSurvivors
  | .asset => assetsSurvivors
  | .script => scriptsSurvivors
  | .schedule => schedulesSurvivors

/-- The per-category discovered item lists (extension-stripped). -/
def itemsOf : Category → List String → List String
  | .job => jobsItems
  | .registryJob => registryItems
  | .endpoint => endpointsItems
  | .resource => resourcesItems
  | .asset => assetsItems
  | .script => scriptsItems
  | .schedule => schedulesItems

/-! ### Path helpers (`parse_path`, `get_schedule_time`) -/

/-- `parse_path` (lines 400-417), with `os.sep = "/"`: filename, project
directory and hyphenated name of a path. -/
def parse_path (path : String) : String × String × String :=
  let parts := pySplit path "/"
  (parts.getLastD "", joinSep "/" parts.dropLast,
   pyReplace (pyReplace path "/" "-") "/" "-")

/-- `os.path.relpath(".", project_dir)` for a normalized relative
directory: one `..` per component. -/
def relParent (dir : String) : String :=
  match pySplit dir "/" with
  | [] => "."
  | _ :: rest => ".." ++ String.join (rest.map (fun _ => "/.."))

/-- `get_schedule_time` (lines 886-890): the pair (hour, minute) derived
from the SHA-512 digest of the filename. -/
def get_schedule_time (filename : String) : Nat × Nat :=
  let name_hash := sha512Int (strBytes filename)
  (name_hash / 60 % hours_between_runs, name_hash % 60)

/-! ### Workflow templates

Each writer of `readme.py` builds one document by concatenating f-strings.
Every f-string (or conditionally appended fragment) below is one "piece";
a writer's document is `String.join` of its piece list, so the pieces give
both the exact output text and the emission order of the steps.  Literal
braces and apostrophes of the source templates are written with `\x7b`,
`\x7d` and `\x27` escapes. -/

/-- Lines 429-441: leading f-string of `write_job_workflow`. -/
def jobHeaderPiece (hyph pd : String) (hm : Nat × Nat) : String :=
  READONLY_HEADER ++ "\nname: cli-" ++ hyph ++
  "\non:\n  workflow_dispatch:\n  schedule:\n    - cron: \"" ++ Nat.repr hm.2 ++
  " " ++ Nat.repr hm.1 ++ "/" ++ Nat.repr hours_between_runs ++
  " * * *\"\n  pull_request:\n    branches:\n      - main\n    paths:\n      - cli/" ++
  pd ++ "/**\n      - infra/bootstrapping/**\n      - .github/workflows/cli-" ++
  hyph ++ ".yml\n"

/-- Line 443: pull-request path added for pipeline samples. -/
def pipePathPiece : String := "      - cli/run-pipeline-jobs.sh\n"

/-- Line 445: pull-request path added for spark samples. -/
def sparkCsvPiece : String := "      - cli/jobs/spark/data/titanic.csv\n"

/-- Lines 446-472 (identical text at lines 527-553): setup path filter,
concurrency section and the checkout / login / bootstrap / setup-cli
steps. -/
def setupCliPiece : String :=
  "      - cli/setup.sh\nconcurrency:\n  group: " ++ GITHUB_CONCURRENCY_GROUP ++
  "\n  cancel-in-progress: true\njobs:\n  build:\n    runs-on: ubuntu-latest\n    steps:\n    - name: check out repo\n      uses: actions/checkout@v2\n    - name: azure login\n      uses: azure/login@v1\n      with:\n        creds: " ++
  CREDENTIALS ++
  "\n    - name: bootstrap resources\n      run: |\n          echo \x27" ++
  GITHUB_CONCURRENCY_GROUP ++
  "\x27;\n          bash bootstrap.sh\n      working-directory: infra/bootstrapping\n      continue-on-error: false\n    - name: setup-cli\n      run: |\n          source \"" ++
  GITHUB_WORKSPACE ++ "/infra/bootstrapping/sdk_helpers.sh\";\n          source \"" ++
  GITHUB_WORKSPACE ++
  "/infra/bootstrapping/init_environment.sh\";\n          bash setup.sh\n      working-directory: cli\n      continue-on-error: true\n"

/-- Lines 475-478 (identical text at lines 559-562): the run-job step
header. -/
def runJobHeaderPiece : String :=
  "    - name: run job\n      run: |\n          source \"" ++ GITHUB_WORKSPACE ++
  "/infra/bootstrapping/sdk_helpers.sh\";\n          source \"" ++ GITHUB_WORKSPACE ++
  "/infra/bootstrapping/init_environment.sh\";\n"

/-- Lines 480-483 (identical text at lines 564-567): the data-preparation
commands inserted when the job path contains both automl and image
markers. -/
def automlPrepPiece : String :=
  "          bash \"" ++ GITHUB_WORKSPACE ++
  "/infra/bootstrapping/sdk_helpers.sh\" replace_template_values \"prepare_data.py\";\n          pip install azure-identity\n          bash \"" ++
  GITHUB_WORKSPACE ++
  "/sdk/python/setup.sh\"  \n          python prepare_data.py --subscription $SUBSCRIPTION_ID --group $RESOURCE_GROUP_NAME --workspace $WORKSPACE_NAME\n"

/-- Line 485: the YAML-generation command inserted for autotuning jobs. -/
def autotuningPiece : String := "          bash -x generate-yml.sh\n"

/-- Lines 487-488: the run-job command of a plain job. -/
def runJobCmdPiece (rel filename pd : String) : String :=
  "          bash -x " ++ rel ++ "/run-job.sh " ++ filename ++
  ".yml\n      working-directory: cli/" ++ pd ++ "\n"

/-- Lines 489-493 (identical text at lines 554-558, 644-648, 738-742,
801-805, 863-867): the validate-readme step. -/
def validatePiece (pd : String) : String :=
  "    - name: validate readme\n      run: |\n          bash check-readme.sh \"" ++
  GITHUB_WORKSPACE ++ "\" \"" ++ GITHUB_WORKSPACE ++ "/cli/" ++ pd ++
  "\"\n      working-directory: infra/bootstrapping\n      continue-on-error: false\n"

/-- Lines 905-909: the spark upload-data step. -/
def sparkUploadPiece : String :=
  "    - name: upload data\n      run: |\n          bash -x upload-data-to-blob.sh jobs/spark/\n      working-directory: cli\n      continue-on-error: true\n"

/-- Lines 911-915: the spark setup-identities step. -/
def sparkIdentitiesPiece (pd : String) : String :=
  "    - name: setup identities\n      run: |\n          bash -x setup-identities.sh\n      working-directory: cli/" ++
  pd ++ "\n      continue-on-error: true\n"

/-- Lines 917-919: the attached-spark step header (no trailing newline in
the source). -/
def sparkAttachedHdrPiece : String :=
  "    - name: setup attached spark\n      working-directory: cli\n      continue-on-error: true"

/-- Lines 921-931: the run command of the attached-spark step, for the
given attached-compute resource file. -/
def sparkAttachedRunPiece (pd filename resource : String) : String :=
  "\n      run: |\n          bash -x " ++ pd ++ "/setup-attached-resources.sh " ++
  resource ++ " " ++ pd ++ "/" ++ filename ++ ".yml\n"

/-- `get_spark_setup_workflow` (lines 900-933) as a piece list; its
concatenation is the string returned by the source function. -/
def sparkSetupPieces (job pd filename : String) : List String :=
  (if pyContains job "managed-identity" then [sparkUploadPiece, sparkIdentitiesPiece pd]
   else [sparkUploadPiece])
  ++ (if pyContains job "attached-spark" then [sparkAttachedHdrPiece] else [])
  ++ (if pyContains job "attached-spark" && pyContains job "user-identity" then
        [sparkAttachedRunPiece pd filename "resources/compute/attached-spark-user-identity.yml"]
      else [])
  ++ (if pyContains job "attached-spark" && pyContains job "managed-identity" then
        [sparkAttachedRunPiece pd filename "resources/compute/attached-spark-system-identity.yml"]
      else [])
  ++ (if pyContains job "attached-spark" && pyContains job "default-identity" then
        [sparkAttachedRunPiece pd filename "resources/compute/attached-spark.yml"]
      else [])

/-- `write_job_workflow` (lines 420-493) as the ordered list of pieces it
concatenates. -/
def jobWorkflowPieces (job : String) : List String :=
  let parsed := parse_path job
  let filename := parsed.1
  let project_dir := parsed.2.1
  let hyph := parsed.2.2
  let pd := pyReplace project_dir "/" "/"
  let hm := get_schedule_time filename
  [jobHeaderPiece hyph pd hm]
  ++ (if pyContains job "jobs/pipelines" then [pipePathPiece] else [])
  ++ (if pyContains job "jobs/spark" then [sparkCsvPiece] else [])
  ++ [setupCliPiece]
  ++ (if pyContains job "jobs/spark" then sparkSetupPieces job pd filename else [])
  ++ [runJobHeaderPiece]
  ++ (if pyContains job "automl" && pyContains job "image" then [automlPrepPiece]
      else if pyContains job "autotuning" then [autotuningPiece]
      else [])
  ++ [runJobCmdPiece (pyReplace (relParent project_dir) "/" "/") filename pd,
      validatePiece pd]

/-- The document written by `write_job_workflow`. -/
def write_job_workflow_yaml (job : String) : String := String.join (jobWorkflowPieces job)

/-- Line 497: the output path of a plain-job workflow. -/
def jobWorkflowTarget (job : String) : String :=
  "../.github/workflows/cli-" ++ pyReplace (pyReplace job "/" "-") "/" "-" ++ ".yml"

/-- Lines 512-524: leading f-string of
`write_job_using_registry_components_workflow`. -/
def registryHeaderPiece (hyph pd : String) (hm : Nat × Nat) : String :=
  READONLY_HEADER ++ "\nname: cli-" ++ hyph ++
  "-registry\non:\n  workflow_dispatch:\n  schedule:\n    - cron: \"" ++ Nat.repr hm.2 ++
  " " ++ Nat.repr hm.1 ++ "/" ++ Nat.repr hours_between_runs ++
  " * * *\"\n  pull_request:\n    branches:\n      - main\n    paths:\n      - cli/" ++
  pd ++ "/**\n      - infra/bootstrapping/**\n      - .github/workflows/cli-" ++
  hyph ++ "-registry.yml\n"

/-- Lines 568-569: the run command of a registry-component job. -/
def registryRunCmdPiece (rel filename folder pd : String) : String :=
  "          bash -x " ++ rel ++ "/run-pipeline-job-with-registry-components.sh " ++
  filename ++ " " ++ folder ++ "\n      working-directory: cli/" ++ pd ++ "\n"

/-- `write_job_using_registry_components_workflow` (lines 503-569) as the
ordered list of pieces it concatenates. -/
def registryWorkflowPieces (job : String) : List String :=
  let parsed := parse_path job
  let filename := parsed.1
  let project_dir := parsed.2.1
  let hyph := parsed.2.2
  let pd := pyReplace project_dir "/" "/"
  let folder := (pySplit project_dir "/").getLastD ""
  let hm := get_schedule_time filename
  [registryHeaderPiece hyph pd hm]
  ++ (if pyContains job "jobs/pipelines" then [pipePathPiece] else [])
  ++ [setupCliPiece, validatePiece pd, runJobHeaderPiece]
  ++ (if pyContains job "automl" && pyContains job "image" then [automlPrepPiece] else [])
  ++ [registryRunCmdPiece (pyReplace (relParent project_dir) "/" "/") filename folder pd]

/-- The document written by `write_job_using_registry_components_workflow`. -/
def write_registry_workflow_yaml (job : String) : String :=
  String.join (registryWorkflowPieces job)

/-- Line 573: the output path of a registry-component-job workflow. -/
def registryWorkflowTarget (job : String) : String :=
  "../.github/workflows/cli-" ++ pyReplace (pyReplace job "/" "-") "/" "-" ++
  "-registry.yml"

/-- Lines 593-599: the endpoint type derived from the endpoint path. -/
def endpointTypeOf (endpoint : String) : String :=
  if pyContains endpoint "endpoints/online/" then "online"
  else if pyContains endpoint "endpoints/batch/" then "batch"
  else "unknown"

/-- Lines 600-602: the synthesized endpoint name; `r` is the value drawn by
`random.randrange(1000, 9999)`. -/
def endpointNameOf (hyph : String) (r : Nat) : String :=
  pyReplace (takeLastN 28 hyph) "-" "" ++ Nat.repr r

/-- Lines 582-590: the sorted, deny-filtered deployment files beside the
endpoint. -/
def endpointDeployments (files : List String) (pd : String) : List String :=
  (pySortStr (pyGlobRaw (pd ++ "/*deployment.yml") files ++
              pyGlobRaw (pd ++ "/*deployment.yaml") files)).filter
    (fun d => !(EXCLUDED_DEPLOYMENTS.any (fun e => pyContains d e)))

/-- Lines 604-662: the `create_endpoint_yaml` f-string (trigger, setup,
validate, delete-if-existing and create-endpoint steps). -/
def endpointHeaderPiece (hyph pd etype epname endpoint : String) (hm : Nat × Nat) : String :=
  READONLY_HEADER ++ "\nname: cli-" ++ hyph ++
  "\non:\n  workflow_dispatch:\n  schedule:\n    - cron: \"" ++ Nat.repr hm.2 ++
  " " ++ Nat.repr hm.1 ++ "/" ++ Nat.repr hours_between_runs ++
  " * * *\"\n  pull_request:\n    branches:\n      - main\n    paths:\n      - cli/" ++
  pd ++ "/**\n      - cli/endpoints/" ++ etype ++
  "/**\n      - infra/bootstrapping/**\n      - .github/workflows/cli-" ++ hyph ++
  ".yml\n      - cli/setup.sh\nconcurrency:\n  group: " ++ GITHUB_CONCURRENCY_GROUP ++
  "\n  cancel-in-progress: true\njobs:\n  build:\n    runs-on: ubuntu-latest\n    steps:\n    - name: check out repo\n      uses: actions/checkout@v2\n    - name: azure login\n      uses: azure/login@v1\n      with:\n        creds: " ++
  CREDENTIALS ++
  "\n    - name: bootstrap resources\n      run: |\n          bash bootstrap.sh\n      working-directory: infra/bootstrapping\n      continue-on-error: false\n    - name: setup-cli\n      run: |\n          source \"" ++
  GITHUB_WORKSPACE ++ "/infra/bootstrapping/sdk_helpers.sh\";\n          source \"" ++
  GITHUB_WORKSPACE ++
  "/infra/bootstrapping/init_environment.sh\";\n          bash setup.sh\n      working-directory: cli\n      continue-on-error: true\n" ++
  validatePiece pd ++
  "    - name: delete endpoint if existing\n      run: |\n          source \"" ++
  GITHUB_WORKSPACE ++ "/infra/bootstrapping/sdk_helpers.sh\";\n          source \"" ++
  GITHUB_WORKSPACE ++ "/infra/bootstrapping/init_environment.sh\";\n          az ml " ++
  etype ++ "-endpoint delete -n " ++ epname ++
  " -y\n      working-directory: cli\n      continue-on-error: true\n    - name: create endpoint\n      run: |\n          source \"" ++
  GITHUB_WORKSPACE ++ "/infra/bootstrapping/sdk_helpers.sh\";\n          source \"" ++
  GITHUB_WORKSPACE ++ "/infra/bootstrapping/init_environment.sh\";\n          cat " ++
  endpoint ++ ".yml\n          az ml " ++ etype ++ "-endpoint create -n " ++ epname ++
  " -f " ++ endpoint ++ ".yml\n      working-directory: cli\n"

/-- Lines 676-682: one create-deployment step (for the extension-stripped
deployment path `d`). -/
def deploymentPiece (etype epname d : String) : String :=
  "    - name: create deployment\n      run: |\n          source \"" ++
  GITHUB_WORKSPACE ++ "/infra/bootstrapping/sdk_helpers.sh\";\n          source \"" ++
  GITHUB_WORKSPACE ++ "/infra/bootstrapping/init_environment.sh\";\n          cat " ++
  d ++ ".yml\n          az ml " ++ etype ++ "-deployment create -e " ++ epname ++
  " -f " ++ d ++ ".yml\n      working-directory: cli\n"

/-- Lines 664-669: the cleanup-endpoint step. -/
def cleanupPiece (etype epname : String) : String :=
  "    - name: cleanup endpoint\n      run: |\n          source \"" ++
  GITHUB_WORKSPACE ++ "/infra/bootstrapping/sdk_helpers.sh\";\n          source \"" ++
  GITHUB_WORKSPACE ++ "/infra/bootstrapping/init_environment.sh\";\n          az ml " ++
  etype ++ "-endpoint delete -n " ++ epname ++ " -y\n      working-directory: cli\n"

/-- `write_endpoint_workflow` (lines 579-690) as the ordered list of pieces
it concatenates; `files` is the file tree it globs for sibling deployments
and `r` the random draw for the endpoint name. -/
def endpointWorkflowPieces (files : List String) (endpoint : String) (r : Nat) : List String :=
  let parsed := parse_path endpoint
  let filename := parsed.1
  let hyph := parsed.2.2
  let pd := pyReplace parsed.2.1 "/" "/"
  let deployments := endpointDeployments files pd
  let hm := get_schedule_time filename
  let etype := endpointTypeOf endpoint
  let epname := endpointNameOf hyph r
  [endpointHeaderPiece hyph pd etype epname endpoint hm]
  ++ deployments.map
      (fun d => deploymentPiece etype epname (pyReplace (pyReplace d ".yml" "") ".yaml" ""))
  ++ [cleanupPiece etype epname]

/-- The document written by `write_endpoint_workflow`. -/
def write_endpoint_workflow_yaml (files : List String) (endpoint : String) (r : Nat) : String :=
  String.join (endpointWorkflowPieces files endpoint r)

/-- Line 689: the output path of an endpoint workflow. -/
def endpointWorkflowTarget (endpoint : String) : String :=
  "../.github/workflows/cli-" ++ (parse_path endpoint).2.2 ++ ".yml"

/-- `write_asset_workflow` (lines 693-754), used for both resources and
assets; the sub-command is the second path component (`asset.split(os.sep)[1]`,
always present for globbed items). -/
def write_asset_workflow_yaml (asset : String) : String :=
  let parsed := parse_path asset
  let filename := parsed.1
  let hyph := parsed.2.2
  let pd := pyReplace parsed.2.1 "/" "/"
  let posix_asset := pyReplace asset "/" "/"
  let hm := get_schedule_time filename
  READONLY_HEADER ++ "\nname: cli-" ++ hyph ++
  "\non:\n  workflow_dispatch:\n  schedule:\n    - cron: \"" ++ Nat.repr hm.2 ++
  " " ++ Nat.repr hm.1 ++ "/" ++ Nat.repr hours_between_runs ++
  " * * *\"\n  pull_request:\n    branches:\n      - main\n    paths:\n      - cli/" ++
  posix_asset ++ ".yml\n      - infra/bootstrapping/**\n      - .github/workflows/cli-" ++
  hyph ++ ".yml\n      - cli/setup.sh\nconcurrency:\n  group: " ++
  GITHUB_CONCURRENCY_GROUP ++
  "\n  cancel-in-progress: true\njobs:\n  build:\n    runs-on: ubuntu-latest\n    steps:\n    - name: check out repo\n      uses: actions/checkout@v2\n    - name: azure login\n      uses: azure/login@v1\n      with:\n        creds: " ++
  CREDENTIALS ++
  "\n    - name: bootstrap resources\n      run: |\n          bash bootstrap.sh\n      working-directory: infra/bootstrapping\n      continue-on-error: false\n    - name: setup-cli\n      run: |\n          source \"" ++
  GITHUB_WORKSPACE ++ "/infra/bootstrapping/sdk_helpers.sh\";\n          source \"" ++
  GITHUB_WORKSPACE ++
  "/infra/bootstrapping/init_environment.sh\";\n          bash setup.sh\n      working-directory: cli\n      continue-on-error: true\n" ++
  validatePiece pd ++
  "    - name: create asset\n      run: |\n          source \"" ++
  GITHUB_WORKSPACE ++ "/infra/bootstrapping/sdk_helpers.sh\";\n          source \"" ++
  GITHUB_WORKSPACE ++ "/infra/bootstrapping/init_environment.sh\";\n          az ml " ++
  (pySplit asset "/").getD 1 "" ++ " create -f " ++ posix_asset ++
  ".yml\n      working-directory: cli\n"

/-- Line 752: the output path of a resource or asset workflow. -/
def assetWorkflowTarget (asset : String) : String :=
  "../.github/workflows/cli-" ++ (parse_path asset).2.2 ++ ".yml"

/-- `write_script_workflow` (lines 757-815). -/
def write_script_workflow_yaml (script : String) : String :=
  let parsed := parse_path script
  let filename := parsed.1
  let hyph := parsed.2.2
  let pd := pyReplace parsed.2.1 "/" "/"
  let hm := get_schedule_time filename
  READONLY_HEADER ++ "\nname: cli-scripts-" ++ hyph ++
  "\non:\n  workflow_dispatch:\n  schedule:\n    - cron: \"" ++ Nat.repr hm.2 ++
  " " ++ Nat.repr hm.1 ++ "/" ++ Nat.repr hours_between_runs ++
  " * * *\"\n  pull_request:\n    branches:\n      - main\n    paths:\n      - cli/" ++
  script ++ ".sh\n      - infra/bootstrapping/**\n      - .github/workflows/cli-scripts-" ++
  hyph ++ ".yml\n      - cli/setup.sh\nconcurrency:\n  group: " ++
  GITHUB_CONCURRENCY_GROUP ++
  "\n  cancel-in-progress: true\njobs:\n  build:\n    runs-on: ubuntu-latest\n    steps:\n    - name: check out repo\n      uses: actions/checkout@v2\n    - name: azure login\n      uses: azure/login@v1\n      with:\n        creds: " ++
  CREDENTIALS ++
  "\n    - name: bootstrap resources\n      run: |\n          bash bootstrap.sh\n      working-directory: infra/bootstrapping\n      continue-on-error: false\n    - name: setup-cli\n      run: |\n          source \"" ++
  GITHUB_WORKSPACE ++ "/infra/bootstrapping/sdk_helpers.sh\";\n          source \"" ++
  GITHUB_WORKSPACE ++
  "/infra/bootstrapping/init_environment.sh\";\n          bash setup.sh\n      working-directory: cli\n      continue-on-error: true\n" ++
  validatePiece pd ++
  "    - name: test script script\n      run: |\n          source \"" ++
  GITHUB_WORKSPACE ++ "/infra/bootstrapping/sdk_helpers.sh\";\n          source \"" ++
  GITHUB_WORKSPACE ++
  "/infra/bootstrapping/init_environment.sh\";\n          set -e; bash -x " ++
  script ++ ".sh\n      working-directory: cli\n"

/-- Line 814: the output path of a script workflow. -/
def scriptWorkflowTarget (script : String) : String :=
  "../.github/workflows/cli-scripts-" ++ (parse_path script).2.2 ++ ".yml"

/-- `write_schedule_workflow` (lines 818-883). -/
def write_schedule_workflow_yaml (schedule : String) : String :=
  let parsed := parse_path schedule
  let filename := parsed.1
  let hyph := parsed.2.2
  let pd := pyReplace parsed.2.1 "/" "/"
  let posix_schedule := pyReplace schedule "/" "/"
  let hm := get_schedule_time filename
  READONLY_HEADER ++ "\nname: cli-schedules-" ++ hyph ++
  "\non:\n  workflow_dispatch:\n  schedule:\n    - cron: \"" ++ Nat.repr hm.2 ++
  " " ++ Nat.repr hm.1 ++ "/" ++ Nat.repr hours_between_runs ++
  " * * *\"\n  pull_request:\n    branches:\n      - main\n    paths:\n      - cli/" ++
  posix_schedule ++
  ".yml\n      - infra/bootstrapping/**\n      - .github/workflows/cli-schedules-" ++
  hyph ++ ".yml\n      - cli/setup.sh\nconcurrency:\n  group: " ++
  GITHUB_CONCURRENCY_GROUP ++
  "\n  cancel-in-progress: true\njobs:\n  build:\n    runs-on: ubuntu-latest\n    steps:\n    - name: check out repo\n      uses: actions/checkout@v2\n    - name: azure login\n      uses: azure/login@v1\n      with:\n        creds: " ++
  CREDENTIALS ++
  "\n    - name: bootstrap resources\n      run: |\n          bash bootstrap.sh\n      working-directory: infra/bootstrapping\n      continue-on-error: false\n    - name: setup-cli\n      run: |\n          source \"" ++
  GITHUB_WORKSPACE ++ "/infra/bootstrapping/sdk_helpers.sh\";\n          source \"" ++
  GITHUB_WORKSPACE ++
  "/infra/bootstrapping/init_environment.sh\";\n          bash setup.sh\n      working-directory: cli\n      continue-on-error: true\n" ++
  validatePiece pd ++
  "    - name: create schedule\n      run: |\n          source \"" ++
  GITHUB_WORKSPACE ++ "/infra/bootstrapping/sdk_helpers.sh\";\n          source \"" ++
  GITHUB_WORKSPACE ++
  "/infra/bootstrapping/init_environment.sh\";\n          az ml schedule create -f ./" ++
  posix_schedule ++ ".yml --set name=\"ci_test_" ++ filename ++
  "\"\n      working-directory: cli\n\n    - name: disable schedule\n      run: |\n          source \"" ++
  GITHUB_WORKSPACE ++ "/infra/bootstrapping/sdk_helpers.sh\";\n          source \"" ++
  GITHUB_WORKSPACE ++
  "/infra/bootstrapping/init_environment.sh\";\n          az ml schedule disable --name ci_test_" ++
  filename ++ "\n      working-directory: cli\n"

/-- Line 882: the output path of a schedule workflow. -/
def scheduleWorkflowTarget (schedule : String) : String :=
  "../.github/workflows/cli-schedules-" ++ (parse_path schedule).2.2 ++ ".yml"

/-! ### README generation (`write_readme`, lines 210-346) -/

/-- Reading a file of the tree (association by exact path). -/
def readFile (tree : List (String × String)) (p : String) : Option String :=
  (tree.find? (fun e => e.1 == p)).map (fun e => e.2)

/-- Lines 235-243 (and the three identical copies): the description shown
for an item, extracted from the first `description: ` line of the item
definition file `item.yml`, defaulting to the sentinel when the file is
missing or has no such line. -/
def descriptionOf (tree : List (String × String)) (item : String) : String :=
  match readFile tree (item ++ ".yml") with
  | none => "*no description*"
  | some content =>
    match (pySplit content "\n").find? (fun l => pyContains l "description: ") with
    | none => "*no description*"
    | some l => pyStrip ((pySplit l ": ").getLastD "")

/-- Lines 230-247 (and the identical endpoint/resource/asset loops): one
row of a path|status|description table. -/
def descRow (tree : List (String × String)) (item : String) : String :=
  let posix := pyReplace item "/" "/"
  let name := pyReplace posix "/" "-"
  let status := "[![" ++ posix ++
    "](https://github.com/Azure/azureml-examples/workflows/cli-" ++ name ++
    "/badge.svg?branch=" ++ BRANCH ++
    ")](https://github.com/Azure/azureml-examples/actions/workflows/cli-" ++
    name ++ ".yml)"
  "[" ++ posix ++ ".yml](" ++ posix ++ ".yml)|" ++ status ++ "|" ++
    descriptionOf tree item ++ "\n"

/-- Lines 310-318: one row of the scripts table. -/
def scriptRow (script : String) : String :=
  let posix := pyReplace script "/" "/"
  let status := "[![" ++ posix ++
    "](https://github.com/Azure/azureml-examples/workflows/cli-scripts-" ++ script ++
    "/badge.svg?branch=" ++ BRANCH ++
    ")](https://github.com/Azure/azureml-examples/actions/workflows/cli-scripts-" ++
    script ++ ".yml)"
  "[" ++ posix ++ ".sh](" ++ posix ++ ".sh)|" ++ status ++ "\n"

/-- Lines 320-331: one row of the schedules table. -/
def scheduleRow (schedule : String) : String :=
  let posix := pyReplace schedule "/" "/"
  let status := "[![" ++ posix ++
    "](https://github.com/Azure/azureml-examples/workflows/cli-schedules-" ++ posix ++
    "/badge.svg?branch=" ++ BRANCH ++
    ")](https://github.com/Azure/azureml-examples/actions/workflows/cli-schedules-" ++
    posix ++ ".yml)"
  "[" ++ posix ++ ".yml](" ++ posix ++ ".yml)|" ++ status ++ "\n"

def jobsTableHdr : String :=
  "\n**Jobs** ([jobs](jobs))\n\npath|status|description\n-|-|-\n"

def endpointsTableHdr : String :=
  "\n**Endpoints** ([endpoints](endpoints))\n\npath|status|description\n-|-|-\n"

def resourcesTableHdr : String :=
  "\n**Resources** ([resources](resources))\n\npath|status|description\n-|-|-\n"

def assetsTableHdr : String :=
  "\n**Assets** ([assets](assets))\n\npath|status|description\n-|-|-\n"

def scriptsTableHdr : String := "\n**Scripts**\n\npath|status|\n-|-\n"

def schedulesTableHdr : String := "\n**Schedules**\n\npath|status|\n-|-\n"

/-- `write_readme` (lines 210-346): the full README document written
(prefix, six tables in the fixed order scripts, jobs, endpoints, resources,
assets, schedules, then suffix).  A missing `prefix.md`/`suffix.md` aborts
the Python run; the embedding substitutes the empty string there. -/
def write_readme (tree : List (String × String))
    (jobs endpoints resources assets scripts schedules : List String) : String :=
  let prefixDoc := (readFile tree "prefix.md").getD ""
  let suffixDoc := (readFile tree "suffix.md").getD ""
  prefixDoc
  ++ (scriptsTableHdr ++ String.join (scripts.map scriptRow))
  ++ (jobsTableHdr ++ String.join (jobs.map (descRow tree)))
  ++ (endpointsTableHdr ++ String.join (endpoints.map (descRow tree)))
  ++ (resourcesTableHdr ++ String.join (resources.map (descRow tree)))
  ++ (assetsTableHdr ++ String.join (assets.map (descRow tree)))
  ++ (schedulesTableHdr ++ String.join (schedules.map scheduleRow))
  ++ suffixDoc

/-! ### The whole run (`main` and the CLI surface, lines 68-185, 937-944) -/

/-- `check_readme` (lines 396-397). -/
def check_readme (before after : String) : Bool := before == after

/-- `write_workflows` (lines 349-393): every workflow file written, as
(output path, document) in emission order; `rs i` is the random draw used
for the `i`-th endpoint. -/
def write_workflows (files : List String) (rs : Nat → Nat) : List (String × String) :=
  (jobsItems files).map (fun j => (jobWorkflowTarget j, write_job_workflow_yaml j))
  ++ (registryItems files).map
      (fun j => (registryWorkflowTarget j, write_registry_workflow_yaml j))
  ++ (endpointsItems files).mapIdx
      (fun i ep => (endpointWorkflowTarget ep, write_endpoint_workflow_yaml files ep (rs i)))
  ++ (resourcesItems files).map
      (fun x => (assetWorkflowTarget x, write_asset_workflow_yaml x))
  ++ (assetsItems files).map
      (fun x => (assetWorkflowTarget x, write_asset_workflow_yaml x))
  ++ (scriptsItems files).map
      (fun s => (scriptWorkflowTarget s, write_script_workflow_yaml s))
  ++ (schedulesItems files).map
      (fun s => (scheduleWorkflowTarget s, write_schedule_workflow_yaml s))

/-- The outputs of one generator run. -/
structure Outputs where
  workflows : List (String × String)
  readme : String
  exitCode : Nat
deriving DecidableEq

/-- `main` (lines 68-185): workflow files, README content and process exit
code of one run over `tree` with random draws `rs` and the parsed
`--check-readme` flag value `checkFlag`.  The exit code is `2` (the
`exit(2)` of line 185) when the check is enabled and the README changed,
else `0` (normal interpreter exit). -/
def pyMain (checkFlag : Bool) (tree : List (String × String)) (rs : Nat → Nat) : Outputs :=
  let files := tree.map Prod.fst
  let readme_before := (readFile tree "README.md").getD ""
  let readme_after := write_readme tree (jobsItems files) (endpointsItems files)
    (resourcesItems files) (assetsItems files) (scriptsItems files) (schedulesItems files)
  { workflows := write_workflows files rs
    readme := readme_after
    exitCode := if checkFlag && !(check_readme readme_before readme_after) then 2 else 0 }

/-- Python `bool(s)` on a string: false exactly for the empty string.  This
is the converter `argparse` applies to the value of `--check-readme`
(line 940, `type=bool`). -/
def pyBool (s : String) : Bool := !(s == "")

/-- The parsed `--check-readme` flag: `False` when the flag is absent
(the `default=False` of line 940), else `bool(value)`. -/
def parseCheckReadme : Option String → Bool
  | none => false
  | some v => pyBool v

/-! ### General helper lemmas -/

/-- Two strings differing within their first `k` characters are distinct;
the hypothesis is kernel-checkable even when only a constant prefix of each
side is known. -/
theorem ne_of_take_beq (k : Nat) (s t : String)
    (h : (List.take k s.data == List.take k t.data) = false) : s ≠ t := by
  intro e
  rw [e] at h
  simp at h

/-- `x.replace("/", "/")` is the identity (the `os.sep`-normalization on a
POSIX platform), at the character-list level. -/
theorem replaceCharsF_self (c : Char) : ∀ (fuel : Nat) (l : List Char),
    replaceCharsF [c] [c] fuel l = l := by
  intro fuel
  induction fuel with
  | zero => intro l; cases l <;> rfl
  | succ n ih =>
    intro l
    cases l with
    | nil => rfl
    | cons d ds =>
      simp only [replaceCharsF]
      by_cases h : c = d
      · subst h
        have hp : [c].isPrefixOf (c :: ds) = true := by simp [List.isPrefixOf]
        simp [hp, ih]
      · have hp : [c].isPrefixOf (d :: ds) = false := by
          simp [List.isPrefixOf]
          exact h
        simp [hp, ih]

/-- The slash normalization `p.replace(os.sep, "/")` of the source is the
identity in this POSIX embedding. -/
theorem pyReplace_slash (s : String) : pyReplace s "/" "/" = s := by
  unfold pyReplace
  rw [show ("/" : String).data = ['/'] from rfl, replaceCharsF_self]

/-- `lexLeB` is total. -/
theorem lexLeB_total : ∀ a b : List Char, lexLeB a b = true ∨ lexLeB b a = true
  | [], _ => Or.inl rfl
  | _ :: _, [] => Or.inr rfl
  | a :: as, b :: bs => by
    simp only [lexLeB]
    rcases Nat.lt_trichotomy a.toNat b.toNat with h | h | h
    · left; simp [h]
    · have h2 : ¬ a.toNat < b.toNat := by omega
      have h3 : ¬ b.toNat < a.toNat := by omega
      simpa [h2, h3] using lexLeB_total as bs
    · right; simp [h]

/-- `lexLeB` is transitive. -/
theorem lexLeB_trans : ∀ a b c : List Char,
    lexLeB a b = true → lexLeB b c = true → lexLeB a c = true
  | [], _, _, _, _ => rfl
  | _ :: _, [], _, h, _ => by simp [lexLeB] at h
  | _ :: _, _ :: _, [], _, h2 => by simp [lexLeB] at h2
  | a :: as, b :: bs, c :: cs, h1, h2 => by
    simp only [lexLeB] at h1 h2 ⊢
    rcases Nat.lt_trichotomy a.toNat b.toNat with hab | hab | hab
    · rcases Nat.lt_trichotomy b.toNat c.toNat with hbc | hbc | hbc
      · simp [show a.toNat < c.toNat by omega]
      · simp [show a.toNat < c.toNat by omega]
      · rw [if_neg (by omega), if_pos hbc] at h2
        exact absurd h2 (by simp)
    · rw [if_neg (by omega), if_neg (by omega)] at h1
      rcases Nat.lt_trichotomy b.toNat c.toNat with hbc | hbc | hbc
      · simp [show a.toNat < c.toNat by omega]
      · rw [if_neg (by omega), if_neg (by omega)] at h2
        rw [if_neg (by omega), if_neg (by omega)]
        exact lexLeB_trans as bs cs h1 h2
      · rw [if_neg (by omega), if_pos hbc] at h2
        exact absurd h2 (by simp)
    · rw [if_neg (by omega), if_pos hab] at h1
      exact absurd h1 (by simp)

instance : IsTotal String strLeP :=
  ⟨fun a b => lexLeB_total a.data b.data⟩

instance : IsTrans String strLeP :=
  ⟨fun _ _ _ h1 h2 => lexLeB_trans _ _ _ h1 h2⟩

/-- The modelled `sorted(...)` really sorts in Python string order. -/
theorem pySortStr_sorted (l : List String) : (pySortStr l).Sorted strLeP :=
  List.sorted_insertionSort strLeP l

/-- The modelled `sorted(...)` permutes its input. -/
theorem pySortStr_perm (l : List String) : (pySortStr l).Perm l :=
  List.perm_insertionSort strLeP l

/-- A sorted glob result is duplicate-free when the file tree is. -/
theorem pyGlobSorted_nodup (pat : String) (files : List String)
    (h : files.Nodup) : (pyGlobSorted pat files).Nodup :=
  (pySortStr_perm _).symm.nodup (h.filter _)

/-- A sorted glob result is sorted. -/
theorem pyGlobSorted_sorted (pat : String) (files : List String) :
    (pyGlobSorted pat files).Sorted strLeP :=
  pySortStr_sorted _

/-- `os.path.relpath(".", d)` always starts with a dot in this embedding. -/
theorem relParent_head (d : String) : (relParent d).data.head? = some '.' := by
  unfold relParent
  cases pySplit d "/" with
  | nil => rfl
  | cons a t => simp [String.data_append]

/-- Filtering a flattened list filters each part. -/
theorem filterFlatten {α : Type} (p : α → Bool) :
    ∀ ls : List (List α), (List.filter p ls.flatten) = (ls.map (List.filter p)).flatten := by
  intro ls
  induction ls with
  | nil => rfl
  | cons h t ih => simp [List.filter_append, ih]

/-- `mapIdx` only depends on the function below the list length. -/
theorem mapIdxCongr {α β : Type} (f g : Nat → α → β) (l : List α)
    (h : ∀ i, i < l.length → ∀ x, f i x = g i x) : l.mapIdx f = l.mapIdx g := by
  rw [List.mapIdx_eq_enum_map, List.mapIdx_eq_enum_map]
  apply List.map_congr_left
  intro a ha
  have := List.mem_enum (x := a.2) (i := a.1) (by simpa using ha)
  exact h a.1 this.1 a.2

/-- `String.join` distributes over cons. -/
theorem strJoin_cons (a : String) (l : List String) :
    String.join (a :: l) = a ++ String.join l := by
  have key : ∀ (l : List String) (s : String),
      List.foldl (fun r t => r ++ t) s l = s ++ List.foldl (fun r t => r ++ t) "" l := by
    intro l
    induction l with
    | nil => intro s; simp
    | cons x xs ih =>
      intro s
      simp only [List.foldl]
      rw [ih (s ++ x), ih ("" ++ x)]
      simp [String.append_assoc]
  simp only [String.join, List.foldl]
  rw [key l ("" ++ a)]
  simp

/-- `Nat.toDigitsCore` never shortens its accumulator. -/
theorem toDigitsCore_len_mono : ∀ (fuel n : Nat) (l : List Char),
    l.length ≤ (Nat.toDigitsCore 10 fuel n l).length := by
  intro fuel
  induction fuel with
  | zero => intro n l; exact Nat.le_refl _
  | succ f ih =>
    intro n l
    simp only [Nat.toDigitsCore]
    split
    · simp
    · exact le_trans (by simp) (ih (n / 10) (Nat.digitChar (n % 10) :: l))

/-- Lower bound on the digit count produced by `Nat.toDigitsCore`: a number
at least `10 ^ e` contributes more than `e` characters (with adequate
fuel). -/
theorem toDigitsCore_len_lower : ∀ (e f n : Nat) (l : List Char),
    10 ^ e ≤ n → n ≤ f →
    l.length + e + 1 ≤ (Nat.toDigitsCore 10 (f + 1) n l).length := by
  intro e
  induction e with
  | zero =>
    intro f n l h1 h2
    simp only [Nat.toDigitsCore]
    split
    · simp
    · exact le_trans (by simp) (toDigitsCore_len_mono f (n / 10) (Nat.digitChar (n % 10) :: l))
  | succ e ih =>
    intro f n l h1 h2
    have hdiv : 10 ^ e ≤ n / 10 := by
      rw [Nat.le_div_iff_mul_le (by norm_num)]
      calc 10 ^ e * 10 = 10 ^ (e + 1) := by ring
        _ ≤ n := h1
    have hne : ¬ n / 10 = 0 := by
      have : 0 < 10 ^ e := Nat.pos_pow_of_pos e (by norm_num)
      omega
    have hn10 : 10 ≤ n := by
      have hp : (10 : Nat) ^ 1 ≤ 10 ^ (e + 1) := Nat.pow_le_pow_right (by norm_num) (by omega)
      calc (10 : Nat) = 10 ^ 1 := by norm_num
        _ ≤ 10 ^ (e + 1) := hp
        _ ≤ n := h1
    obtain ⟨f', rfl⟩ : ∃ f', f = f' + 1 := ⟨f - 1, by omega⟩
    have hle : n / 10 ≤ f' := by
      have := Nat.div_lt_self (show 0 < n by omega) (show 1 < 10 by norm_num)
      omega
    have hrec := ih f' (n / 10) (Nat.digitChar (n % 10) :: l) hdiv hle
    simp only [Nat.toDigitsCore]
    split
    · next hzero => exact absurd hzero hne
    · next hzero =>
      simp only [Nat.toDigitsCore, List.length_cons] at hrec
      omega

/-- The decimal representation of a number in `[1000, 10000)` has exactly
four digits. -/
theorem repr_len_four (r : Nat) (h1 : 1000 ≤ r) (h2 : r < 10000) :
    (Nat.repr r).length = 4 := by
  have upper : (Nat.repr r).length ≤ 4 := Nat.repr_length r 4 (by norm_num) (by omega)
  have lower : 4 ≤ (Nat.repr r).length := by
    have key := toDigitsCore_len_lower 3 r r [] (by norm_num; omega) (Nat.le_refl r)
    simpa [Nat.repr, Nat.toDigits] using key
  omega

/-! ### Membership helpers for piece lists -/

theorem mem_ite_list {α : Type} {c : Prop} [Decidable c] {x : α} {l1 l2 : List α} :
    (x ∈ (if c then l1 else l2)) ↔ ((c ∧ x ∈ l1) ∨ (¬ c ∧ x ∈ l2)) := by
  split
  · next h => simp [h]
  · next h => simp [h]

/-- The 13-character prefixes of the spark-setup pieces. -/
def sparkPrefixes : List (List Char) :=
  ["    - name: u".data, "    - name: s".data, "\n      run: |".data]

/-- The 13-character prefixes of the registry-workflow pieces. -/
def registryPrefixes : List (List Char) :=
  ["# This code i".data, "      - cli/r".data, "      - cli/s".data,
   "    - name: v".data, "    - name: r".data, "          bas".data]

theorem mem_spark_take13 (j pd f s : String) (h : s ∈ sparkSetupPieces j pd f) :
    List.take 13 s.data ∈ sparkPrefixes := by
  simp [sparkSetupPieces, mem_ite_list, List.mem_append, List.mem_cons] at h
  rcases h with (⟨-, rfl | rfl⟩ | ⟨-, rfl⟩) | ⟨-, rfl⟩ | ⟨-, rfl⟩ | ⟨-, rfl⟩ | ⟨-, rfl⟩
  · exact .head _
  · exact .tail _ (.head _)
  · exact .head _
  · exact .tail _ (.head _)
  · exact .tail _ (.tail _ (.head _))
  · exact .tail _ (.tail _ (.head _))
  · exact .tail _ (.tail _ (.head _))

theorem mem_registry_take13 (job s : String) (h : s ∈ registryWorkflowPieces job) :
    List.take 13 s.data ∈ registryPrefixes := by
  simp [registryWorkflowPieces, mem_ite_list, List.mem_append, List.mem_cons] at h
  rcases h with rfl | ⟨-, rfl⟩ | rfl | rfl | rfl | ⟨-, rfl⟩ | rfl
  · exact .head _
  · exact .tail _ (.head _)
  · exact .tail _ (.tail _ (.head _))
  · exact .tail _ (.tail _ (.tail _ (.head _)))
  · exact .tail _ (.tail _ (.tail _ (.tail _ (.head _))))
  · exact .tail _ (.tail _ (.tail _ (.tail _ (.tail _ (.head _)))))
  · exact .tail _ (.tail _ (.tail _ (.tail _ (.tail _ (.head _)))))

/-- No piece produced by the spark-setup generator occurs in a
registry-component-job workflow. -/
theorem spark_not_mem_registry (job j2 pd2 f2 s : String)
    (hsp : s ∈ sparkSetupPieces j2 pd2 f2) : s ∉ registryWorkflowPieces job := by
  intro hreg
  have h1 := mem_spark_take13 j2 pd2 f2 s hsp
  have h2 := mem_registry_take13 job s hreg
  simp only [sparkPrefixes, registryPrefixes, List.mem_cons, List.not_mem_nil, or_false] at h1 h2
  rcases h1 with h1 | h1 | h1 <;> rw [h1] at h2 <;> exact absurd h2 (by decide)

/-- The data-preparation block is not a spark-setup piece. -/
theorem automl_not_mem_spark (job pd f : String) :
    automlPrepPiece ∉ sparkSetupPieces job pd f := by
  have n1 : automlPrepPiece ≠ sparkUploadPiece := ne_of_take_beq 5 _ _ rfl
  have n2 : automlPrepPiece ≠ sparkIdentitiesPiece pd := ne_of_take_beq 5 _ _ rfl
  have n3 : automlPrepPiece ≠ sparkAttachedHdrPiece := ne_of_take_beq 5 _ _ rfl
  have n4 : ∀ res, automlPrepPiece ≠ sparkAttachedRunPiece pd f res :=
    fun res => ne_of_take_beq 1 _ _ rfl
  intro h
  simp [sparkSetupPieces, mem_ite_list, List.mem_append, List.mem_cons, n1, n2, n3, n4] at h

/-- The YAML-generation line is not a spark-setup piece. -/
theorem autotuning_not_mem_spark (job pd f : String) :
    autotuningPiece ∉ sparkSetupPieces job pd f := by
  have n1 : autotuningPiece ≠ sparkUploadPiece := ne_of_take_beq 5 _ _ rfl
  have n2 : autotuningPiece ≠ sparkIdentitiesPiece pd := ne_of_take_beq 5 _ _ rfl
  have n3 : autotuningPiece ≠ sparkAttachedHdrPiece := ne_of_take_beq 5 _ _ rfl
  have n4 : ∀ res, autotuningPiece ≠ sparkAttachedRunPiece pd f res :=
    fun res => ne_of_take_beq 1 _ _ rfl
  intro h
  simp [sparkSetupPieces, mem_ite_list, List.mem_append, List.mem_cons, n1, n2, n3, n4] at h

/-- The YAML-generation line differs from the run-job command, whose
relative-path interpolation always starts with a dot. -/
theorem autotuning_ne_runJobCmd (rel f pd : String) (h : rel.data.head? = some '.') :
    autotuningPiece ≠ runJobCmdPiece rel f pd := by
  cases hr : rel.data with
  | nil => rw [hr] at h; exact absurd h (by simp)
  | cons a l =>
    have ha : a = '.' := by rw [hr] at h; simpa using h
    subst ha
    apply ne_of_take_beq 19
    simp only [runJobCmdPiece, String.append_assoc, String.data_append]
    rw [hr]
    rfl

/-- The extension strip applied to the items of each category. -/
def stripOf : Category → String → String
  | .script => fun p => pyReplace p ".sh" ""
  | _ => fun p => pyReplace p ".yml" ""

/-! ### Claim C1 -/

/-- A one-endpoint tree used to exhibit the endpoint-name randomness. -/
def c1Tree : List (String × String) :=
  [("endpoints/online/foo/foo-endpoint.yml", ""), ("README.md", ""),
   ("prefix.md", "P"), ("suffix.md", "S")]

set_option maxRecDepth 10000 in
/-- C1 counterexample: two runs of the generator over the same unchanged
tree produce different endpoint workflow files when the random draws differ
(first run draws 1000, second run draws 1001), so the second run is not
byte-identical for endpoint workflows. -/
theorem claim1_counterexample :
    (pyMain false c1Tree (fun _ => 1000)).workflows ≠
      (pyMain false c1Tree (fun _ => 1001)).workflows := by
  intro h
  have hobs := congrArg (fun l : List (String × String) =>
    l.map (fun e => e.2.data.count '0')) h
  exact absurd hobs (by decide)

/-- C1 (amended): over an unchanged tree, the README, the exit code and
every workflow file except the endpoint workflows are byte-identical across
runs whatever the random draws; the whole output coincides as soon as the
draws used for the endpoints coincide. -/
theorem claim1_amended_thm (checkFlag : Bool) (tree : List (String × String))
    (rs1 rs2 : Nat → Nat) :
    (pyMain checkFlag tree rs1).readme = (pyMain checkFlag tree rs2).readme
    ∧ (pyMain checkFlag tree rs1).exitCode = (pyMain checkFlag tree rs2).exitCode
    ∧ ((∀ i, i < (endpointsItems (tree.map Prod.fst)).length → rs1 i = rs2 i) →
        pyMain checkFlag tree rs1 = pyMain checkFlag tree rs2) := by
  refine ⟨rfl, rfl, fun h => ?_⟩
  have heq : (endpointsItems (tree.map Prod.fst)).mapIdx
      (fun i ep => (endpointWorkflowTarget ep,
        write_endpoint_workflow_yaml (tree.map Prod.fst) ep (rs1 i))) =
    (endpointsItems (tree.map Prod.fst)).mapIdx
      (fun i ep => (endpointWorkflowTarget ep,
        write_endpoint_workflow_yaml (tree.map Prod.fst) ep (rs2 i))) :=
    mapIdxCongr _ _ _ (fun i hi x => by rw [h i hi])
  simp only [pyMain, write_workflows]
  rw [heq]

set_option maxRecDepth 10000 in
/-- C1 witness: the amended theorem applied to the concrete one-endpoint
tree with coinciding draws. -/
theorem claim1_amended_witness :
    (∀ i, i < (endpointsItems (c1Tree.map Prod.fst)).length →
      (fun _ : Nat => 1000) i = (fun _ : Nat => 1000) i)
    ∧ pyMain true c1Tree (fun _ => 1000) = pyMain true c1Tree (fun _ => 1000) :=
  ⟨fun _ _ => rfl,
   (claim1_amended_thm true c1Tree (fun _ => 1000) (fun _ => 1000)).2.2 (fun _ _ => rfl)⟩

/-! ### Claim C2 -/

set_option maxRecDepth 10000 in
/-- C2 counterexample: over a two-file tree, the discovered plain-job item
list has a duplicate (the pipeline job is matched by two patterns) and is
not lexically sorted (the later-pattern basics item follows the pipeline
item). -/
theorem claim2_counterexample :
    itemsOf .job ["jobs/pipelines/a-pipeline-job.yml", "jobs/basics/hello.yml"] =
      ["jobs/pipelines/a-pipeline-job", "jobs/basics/hello", "jobs/pipelines/a-pipeline-job"]
    ∧ ¬ (itemsOf .job ["jobs/pipelines/a-pipeline-job.yml", "jobs/basics/hello.yml"]).Nodup
    ∧ ¬ (itemsOf .job
        ["jobs/pipelines/a-pipeline-job.yml", "jobs/basics/hello.yml"]).Sorted strLeP := by
  refine ⟨by decide, by decide, by decide⟩

/-- C2 (amended): every category other than plain jobs is a single sorted,
duplicate-free glob list (sorted before extension stripping, filtered by
the exclusion list); the plain-job category is the concatenation of ten
individually sorted, individually duplicate-free pattern lists, without
global re-sorting or cross-pattern deduplication.  Items are the surviving
paths with extensions stripped, in the same order. -/
theorem claim2_amended_thm (files : List String) (hnd : files.Nodup) :
    (∀ c : Category, c ≠ .job →
      (survivorsOf c files).Sorted strLeP ∧ (survivorsOf c files).Nodup ∧
      itemsOf c files = (survivorsOf c files).map (stripOf c))
    ∧ (∃ ls : List (List String),
        jobsSurvivors files = ls.flatten ∧ (∀ l ∈ ls, l.Sorted strLeP ∧ l.Nodup) ∧
        jobsItems files = (jobsSurvivors files).map (stripOf .job)) := by
  constructor
  · intro c hc
    cases c
    · exact absurd rfl hc
    · exact ⟨(pyGlobSorted_sorted _ _).filter _, (pyGlobSorted_nodup _ _ hnd).filter _, rfl⟩
    · exact ⟨(pyGlobSorted_sorted _ _).filter _, (pyGlobSorted_nodup _ _ hnd).filter _, rfl⟩
    · exact ⟨(pyGlobSorted_sorted _ _).filter _, (pyGlobSorted_nodup _ _ hnd).filter _, rfl⟩
    · exact ⟨(pyGlobSorted_sorted _ _).filter _, (pyGlobSorted_nodup _ _ hnd).filter _, rfl⟩
    · exact ⟨(pyGlobSorted_sorted _ _).filter _, (pyGlobSorted_nodup _ _ hnd).filter _, rfl⟩
    · exact ⟨(pyGlobSorted_sorted _ _).filter _, (pyGlobSorted_nodup _ _ hnd).filter _, rfl⟩
  · refine ⟨(jobPatterns.map (fun pat => pyGlobSorted pat files)).map
        (List.filter (fun job => !(EXCLUDED_JOBS.any (fun e => pyContains job e)))),
      ?_, ?_, rfl⟩
    · rw [jobsSurvivors, jobsRaw, filterFlatten]
    · intro l hl
      obtain ⟨l0, hl0, rfl⟩ := List.mem_map.mp hl
      obtain ⟨pat, -, rfl⟩ := List.mem_map.mp hl0
      exact ⟨(pyGlobSorted_sorted _ _).filter _, (pyGlobSorted_nodup _ _ hnd).filter _⟩

set_option maxRecDepth 10000 in
/-- C2 witness: the amended theorem at a concrete duplicate-free tree,
specialized to the endpoint category. -/
theorem claim2_amended_witness :
    (survivorsOf .endpoint ["endpoints/online/a/x-endpoint.yml", "resources/a.yml"]).Sorted strLeP
    ∧ (survivorsOf .endpoint ["endpoints/online/a/x-endpoint.yml", "resources/a.yml"]).Nodup := by
  have h := claim2_amended_thm ["endpoints/online/a/x-endpoint.yml", "resources/a.yml"]
    (by decide)
  exact ⟨(h.1 .endpoint (by decide)).1, (h.1 .endpoint (by decide)).2.1⟩

/-! ### Claim C3 -/

/-- C3 (confirmed): a path containing any substring of its category
exclusion list never survives discovery for that category, so the generator
(whose workflow writers and README rows iterate exactly over the stripped
surviving lists) emits no workflow document and no README row for it. -/
theorem claim3_holds (c : Category) (files : List String) (p : String)
    (hex : (excludedOf c).any (fun e => pyContains p e) = true) :
    p ∉ survivorsOf c files := by
  intro hmem
  cases c <;>
    simp only [survivorsOf, excludedOf, jobsSurvivors, registrySurvivors, endpointsSurvivors,
      resourcesSurvivors, assetsSurvivors, scriptsSurvivors, schedulesSurvivors,
      List.mem_filter, pyReplace_slash] at hmem hex <;>
    rw [hex] at hmem <;> simp at hmem

set_option maxRecDepth 10000 in
/-- C3 witness: the excluded job `java`-job is dropped from its own
one-file tree. -/
theorem claim3_witness :
    (excludedOf .job).any (fun e => pyContains "jobs/basics/java-job.yml" e) = true
    ∧ "jobs/basics/java-job.yml" ∉ survivorsOf .job ["jobs/basics/java-job.yml"] :=
  ⟨by decide, claim3_holds .job ["jobs/basics/java-job.yml"] "jobs/basics/java-job.yml"
    (by decide)⟩

/-! ### Claims C4 and C5 -/

set_option maxRecDepth 10000 in
/-- C4 (confirmed): the schedule time of a filename is the pair
(hour, minute) with minute the SHA-512 digest integer mod 60 and hour the
digest divided by 60 mod the 12-hour stride; the function is a pure
function of the filename, and two concrete distinct filenames receive
distinct pairs. -/
theorem claim4_holds :
    (∀ fn : String, get_schedule_time fn =
      (sha512Int (strBytes fn) / 60 % hours_between_runs, sha512Int (strBytes fn) % 60))
    ∧ hours_between_runs = 12
    ∧ get_schedule_time "pipeline" ≠ get_schedule_time "hello-world" :=
  ⟨fun _ => rfl, rfl, by decide⟩

/-- C5 (confirmed): in check mode, a README that changed under
regeneration terminates the run with exit code 2 (neither 0 nor 1), and an
unchanged README terminates it with exit code 0. -/
theorem claim5_holds (tree : List (String × String)) (rs : Nat → Nat) :
    ((readFile tree "README.md").getD "" ≠ (pyMain true tree rs).readme →
      (pyMain true tree rs).exitCode = 2 ∧ (pyMain true tree rs).exitCode ≠ 0 ∧
        (pyMain true tree rs).exitCode ≠ 1)
    ∧ ((readFile tree "README.md").getD "" = (pyMain true tree rs).readme →
      (pyMain true tree rs).exitCode = 0) := by
  constructor
  · intro h
    have hb : (((readFile tree "README.md").getD "") ==
        (pyMain true tree rs).readme) = false := beq_eq_false_iff_ne.mpr h
    simp only [pyMain] at hb
    simp only [pyMain, check_readme, hb]
    simp
  · intro h
    have hb : (((readFile tree "README.md").getD "") ==
        (pyMain true tree rs).readme) = true := by
      rw [h]; exact beq_self_eq_true _
    simp only [pyMain] at hb
    simp only [pyMain, check_readme, hb]
    simp

set_option maxRecDepth 10000 in
/-- C5 witness: on the empty tree the README changes (from missing to
generated), so a check-mode run exits with code 2. -/
theorem claim5_witness :
    ((readFile ([] : List (String × String)) "README.md").getD "" ≠
      (pyMain true [] (fun _ => 0)).readme)
    ∧ (pyMain true [] (fun _ => 0)).exitCode = 2 :=
  ⟨by decide, ((claim5_holds [] (fun _ => 0)).1 (by decide)).1⟩

/-! ### Claim C6 -/

set_option maxRecDepth 10000 in
/-- C6 counterexample: a registry-component job whose path contains the
automl and image markers does receive the data-preparation block in its
generated workflow, contradicting the claim that registry-component
workflows carry no automl extra steps. -/
theorem claim6_counterexample :
    registryItems ["jobs/pipelines-with-components/basics/automl-image/pipeline.yml"] =
      ["jobs/pipelines-with-components/basics/automl-image/pipeline"]
    ∧ automlPrepPiece ∈
        registryWorkflowPieces "jobs/pipelines-with-components/basics/automl-image/pipeline" :=
  ⟨by decide, by decide⟩

/-- C6 (amended): a registry-component workflow contains the automl
data-preparation block exactly when the job path contains both the automl
and image markers; it contains no spark-setup piece; its readme-validation
step is emitted immediately before the run-step header; and in a plain-job
workflow the run command is emitted immediately before the validation
step. -/
theorem claim6_amended_thm (job : String) :
    (automlPrepPiece ∈ registryWorkflowPieces job ↔
      (pyContains job "automl" && pyContains job "image") = true)
    ∧ (∀ j2 pd2 f2 s, s ∈ sparkSetupPieces j2 pd2 f2 → s ∉ registryWorkflowPieces job)
    ∧ (∃ A B, registryWorkflowPieces job =
        A ++ validatePiece (pyReplace (parse_path job).2.1 "/" "/") :: runJobHeaderPiece :: B)
    ∧ (∃ A, jobWorkflowPieces job =
        A ++ [runJobCmdPiece (pyReplace (relParent (parse_path job).2.1) "/" "/")
            (parse_path job).1 (pyReplace (parse_path job).2.1 "/" "/"),
          validatePiece (pyReplace (parse_path job).2.1 "/" "/")]) := by
  refine ⟨?_, fun j2 pd2 f2 s hs => spark_not_mem_registry job j2 pd2 f2 s hs, ?_, ?_⟩
  · have a1 : automlPrepPiece ≠ registryHeaderPiece (parse_path job).2.2
        (pyReplace (parse_path job).2.1 "/" "/") (get_schedule_time (parse_path job).1) :=
      ne_of_take_beq 1 _ _ rfl
    have a2 : automlPrepPiece ≠ pipePathPiece := ne_of_take_beq 7 _ _ rfl
    have a4 : automlPrepPiece ≠ setupCliPiece := ne_of_take_beq 7 _ _ rfl
    have a5 : automlPrepPiece ≠ runJobHeaderPiece := ne_of_take_beq 5 _ _ rfl
    have a7 : automlPrepPiece ≠ registryRunCmdPiece
        (pyReplace (relParent (parse_path job).2.1) "/" "/") (parse_path job).1
        ((pySplit (parse_path job).2.1 "/").getLast?.getD "")
        (pyReplace (parse_path job).2.1 "/" "/") := ne_of_take_beq 16 _ _ rfl
    have a8 : automlPrepPiece ≠ validatePiece (pyReplace (parse_path job).2.1 "/" "/") :=
      ne_of_take_beq 5 _ _ rfl
    simp [registryWorkflowPieces, mem_ite_list, List.mem_append, List.mem_cons,
      a1, a2, a4, a5, a7, a8]
  · refine ⟨[registryHeaderPiece (parse_path job).2.2 (pyReplace (parse_path job).2.1 "/" "/")
        (get_schedule_time (parse_path job).1)]
      ++ (if pyContains job "jobs/pipelines" = true then [pipePathPiece] else [])
      ++ [setupCliPiece],
      (if (pyContains job "automl" && pyContains job "image") = true
        then [automlPrepPiece] else [])
      ++ [registryRunCmdPiece (pyReplace (relParent (parse_path job).2.1) "/" "/")
          (parse_path job).1 ((pySplit (parse_path job).2.1 "/").getLastD "")
          (pyReplace (parse_path job).2.1 "/" "/")], ?_⟩
    simp [registryWorkflowPieces]
  · refine ⟨[jobHeaderPiece (parse_path job).2.2 (pyReplace (parse_path job).2.1 "/" "/")
        (get_schedule_time (parse_path job).1)]
      ++ (if pyContains job "jobs/pipelines" = true then [pipePathPiece] else [])
      ++ (if pyContains job "jobs/spark" = true then [sparkCsvPiece] else [])
      ++ [setupCliPiece]
      ++ (if pyContains job "jobs/spark" = true then
            sparkSetupPieces job (pyReplace (parse_path job).2.1 "/" "/") (parse_path job).1
          else [])
      ++ [runJobHeaderPiece]
      ++ (if (pyContains job "automl" && pyContains job "image") = true then [automlPrepPiece]
          else if pyContains job "autotuning" = true then [autotuningPiece] else []), ?_⟩
    simp [jobWorkflowPieces]

set_option maxRecDepth 10000 in
/-- C6 witness: the amended theorem applied at a concrete registry job,
showing the spark upload step of a concrete spark-setup instance does not
occur in its workflow. -/
theorem claim6_amended_witness :
    sparkUploadPiece ∈ sparkSetupPieces "jobs/x" "jobs" "x"
    ∧ sparkUploadPiece ∉
        registryWorkflowPieces "jobs/pipelines-with-components/basics/p1/pipeline" :=
  ⟨by decide,
   (claim6_amended_thm "jobs/pipelines-with-components/basics/p1/pipeline").2.1
     "jobs/x" "jobs" "x" sparkUploadPiece (by decide)⟩

/-! ### Claim C7 -/

set_option maxRecDepth 10000 in
/-- C7 counterexample: a plain job whose path contains the automl, image
and autotuning markers all at once receives the data-preparation block but
not the YAML-generation step, because the source tests the conditions with
an if/elif chain rather than independently. -/
theorem claim7_counterexample :
    pyContains "jobs/automl-standalone-jobs/cli-automl-image-autotuning-job" "autotuning" = true
    ∧ autotuningPiece ∉
        jobWorkflowPieces "jobs/automl-standalone-jobs/cli-automl-image-autotuning-job"
    ∧ automlPrepPiece ∈
        jobWorkflowPieces "jobs/automl-standalone-jobs/cli-automl-image-autotuning-job" :=
  ⟨by decide, by decide, by decide⟩

/-- C7 (amended): a plain-job workflow contains the data-preparation block
exactly when the job path contains both the automl and image markers, and
the YAML-generation step exactly when the path contains the autotuning
marker and not both automl and image (the elif branch). -/
theorem claim7_amended_thm (job : String) :
    (automlPrepPiece ∈ jobWorkflowPieces job ↔
      (pyContains job "automl" && pyContains job "image") = true)
    ∧ (autotuningPiece ∈ jobWorkflowPieces job ↔
      (pyContains job "autotuning" && !(pyContains job "automl" && pyContains job "image"))
        = true) := by
  have hrel : (pyReplace (relParent (parse_path job).2.1) "/" "/").data.head? = some '.' := by
    rw [pyReplace_slash]; exact relParent_head _
  have a1 : automlPrepPiece ≠ jobHeaderPiece (parse_path job).2.2
      (pyReplace (parse_path job).2.1 "/" "/") (get_schedule_time (parse_path job).1) :=
    ne_of_take_beq 1 _ _ rfl
  have a2 : automlPrepPiece ≠ pipePathPiece := ne_of_take_beq 7 _ _ rfl
  have a3 : automlPrepPiece ≠ sparkCsvPiece := ne_of_take_beq 7 _ _ rfl
  have a4 : automlPrepPiece ≠ setupCliPiece := ne_of_take_beq 7 _ _ rfl
  have a5 : automlPrepPiece ≠ runJobHeaderPiece := ne_of_take_beq 5 _ _ rfl
  have a6 : automlPrepPiece ≠ autotuningPiece := ne_of_take_beq 16 _ _ rfl
  have a7 : automlPrepPiece ≠ runJobCmdPiece (pyReplace (relParent (parse_path job).2.1) "/" "/")
      (parse_path job).1 (pyReplace (parse_path job).2.1 "/" "/") := ne_of_take_beq 16 _ _ rfl
  have a8 : automlPrepPiece ≠ validatePiece (pyReplace (parse_path job).2.1 "/" "/") :=
    ne_of_take_beq 5 _ _ rfl
  have b1 : autotuningPiece ≠ jobHeaderPiece (parse_path job).2.2
      (pyReplace (parse_path job).2.1 "/" "/") (get_schedule_time (parse_path job).1) :=
    ne_of_take_beq 1 _ _ rfl
  have b2 : autotuningPiece ≠ pipePathPiece := ne_of_take_beq 7 _ _ rfl
  have b3 : autotuningPiece ≠ sparkCsvPiece := ne_of_take_beq 7 _ _ rfl
  have b4 : autotuningPiece ≠ setupCliPiece := ne_of_take_beq 7 _ _ rfl
  have b5 : autotuningPiece ≠ runJobHeaderPiece := ne_of_take_beq 5 _ _ rfl
  have b7 : autotuningPiece ≠ runJobCmdPiece (pyReplace (relParent (parse_path job).2.1) "/" "/")
      (parse_path job).1 (pyReplace (parse_path job).2.1 "/" "/") :=
    autotuning_ne_runJobCmd _ _ _ hrel
  have b8 : autotuningPiece ≠ validatePiece (pyReplace (parse_path job).2.1 "/" "/") :=
    ne_of_take_beq 5 _ _ rfl
  have hs1 := automl_not_mem_spark job (pyReplace (parse_path job).2.1 "/" "/") (parse_path job).1
  have hs2 := autotuning_not_mem_spark job (pyReplace (parse_path job).2.1 "/" "/") (parse_path job).1
  constructor
  · simp [jobWorkflowPieces, mem_ite_list, List.mem_append, List.mem_cons,
      a1, a2, a3, a4, a5, a6, a7, a8, a6.symm, hs1]
  · simp [jobWorkflowPieces, mem_ite_list, List.mem_append, List.mem_cons,
      b1, b2, b3, b4, b5, b7, b8, a6.symm, hs2]
    cases h1 : pyContains job "automl" <;> cases h2 : pyContains job "image" <;>
      cases h3 : pyContains job "autotuning" <;> simp

/-! ### Claims C8, C9 and C10 -/

/-- Modelled from the spec wording of the endpoint-name rule, for
comparison with the code: deterministic truncation of the hyphenated name
to its last 28 characters, hyphen separators stripped, suffixed with the
drawn 4-digit number. -/
def specEndpointName (path : String) (r : Nat) : String :=
  pyReplace (takeLastN 28 (pyReplace (pyReplace path "/" "-") "/" "-")) "-" "" ++ Nat.repr r

/-- C8 (confirmed): the synthesized endpoint name equals the last 28
characters of the hyphenated item name with hyphens stripped, followed by
the decimal digits of the draw, which for the range of
`random.randrange(1000, 9999)` is a 4-digit number; the part before the
suffix is a function of the item path alone. -/
theorem claim8_holds (endpoint : String) (r : Nat) (h1 : 1000 ≤ r) (h2 : r < 9999) :
    endpointNameOf (parse_path endpoint).2.2 r = specEndpointName endpoint r
    ∧ (Nat.repr r).length = 4 := by
  constructor
  · rfl
  · exact repr_len_four r h1 (by omega)

/-- C8 witness: the theorem at a concrete endpoint path and draw. -/
theorem claim8_witness :
    endpointNameOf (parse_path "endpoints/online/foo/my-endpoint").2.2 1234 =
      specEndpointName "endpoints/online/foo/my-endpoint" 1234
    ∧ (Nat.repr 1234).length = 4 :=
  claim8_holds "endpoints/online/foo/my-endpoint" 1234 (by decide) (by decide)

set_option maxRecDepth 10000 in
/-- C9 counterexample: an endpoint directory whose name contains a
deny-list substring loses every sibling deployment, even one whose own
filename is not on the deny-list, so its workflow has no create-deployment
step at all (just the header and cleanup pieces). -/
theorem claim9_counterexample :
    endpointsItems ["endpoints/online/r-deployment-demo/demo-endpoint.yml",
        "endpoints/online/r-deployment-demo/blue-deployment.yml"] =
      ["endpoints/online/r-deployment-demo/demo-endpoint"]
    ∧ globMatch ("endpoints/online/r-deployment-demo" ++ "/*deployment.yml")
        "endpoints/online/r-deployment-demo/blue-deployment.yml" = true
    ∧ (EXCLUDED_DEPLOYMENTS.any (fun e => pyContains "blue-deployment.yml" e)) = false
    ∧ endpointDeployments ["endpoints/online/r-deployment-demo/demo-endpoint.yml",
        "endpoints/online/r-deployment-demo/blue-deployment.yml"]
        "endpoints/online/r-deployment-demo" = []
    ∧ (endpointWorkflowPieces ["endpoints/online/r-deployment-demo/demo-endpoint.yml",
        "endpoints/online/r-deployment-demo/blue-deployment.yml"]
        "endpoints/online/r-deployment-demo/demo-endpoint" 1000).length = 2 :=
  ⟨by decide, by decide, by decide, by decide, by decide⟩

/-- C9 (amended): the endpoint workflow is the header piece, one
create-deployment step per entry of the deployment list in order, and the
cleanup piece; the deployment list is sorted; it is duplicate-free whenever
the tree is and no tree path matches both deployment globs; and a path is
in the deployment list iff it lies in the tree, matches one of the two
sibling deployment globs, and contains no deny-list substring anywhere in
its full path. -/
theorem claim9_amended_thm (files : List String) (ep : String) (r : Nat) :
    (endpointWorkflowPieces files ep r =
      endpointHeaderPiece (parse_path ep).2.2 (pyReplace (parse_path ep).2.1 "/" "/")
        (endpointTypeOf ep) (endpointNameOf (parse_path ep).2.2 r) ep
        (get_schedule_time (parse_path ep).1)
      :: ((endpointDeployments files (pyReplace (parse_path ep).2.1 "/" "/")).map
            (fun d => deploymentPiece (endpointTypeOf ep) (endpointNameOf (parse_path ep).2.2 r)
              (pyReplace (pyReplace d ".yml" "") ".yaml" ""))
          ++ [cleanupPiece (endpointTypeOf ep) (endpointNameOf (parse_path ep).2.2 r)]))
    ∧ (endpointDeployments files (pyReplace (parse_path ep).2.1 "/" "/")).Sorted strLeP
    ∧ (files.Nodup →
        (∀ d ∈ files,
          ¬(globMatch (pyReplace (parse_path ep).2.1 "/" "/" ++ "/*deployment.yml") d = true ∧
            globMatch (pyReplace (parse_path ep).2.1 "/" "/" ++ "/*deployment.yaml") d = true)) →
        (endpointDeployments files (pyReplace (parse_path ep).2.1 "/" "/")).Nodup)
    ∧ (∀ d, d ∈ endpointDeployments files (pyReplace (parse_path ep).2.1 "/" "/") ↔
        (d ∈ files ∧
         (globMatch (pyReplace (parse_path ep).2.1 "/" "/" ++ "/*deployment.yml") d ||
          globMatch (pyReplace (parse_path ep).2.1 "/" "/" ++ "/*deployment.yaml") d) = true ∧
         (EXCLUDED_DEPLOYMENTS.any (fun e => pyContains d e)) = false)) := by
  refine ⟨rfl, (pySortStr_sorted _).filter _, fun hnd hdisj => ?_, fun d => ?_⟩
  · apply List.Nodup.filter
    apply (pySortStr_perm _).symm.nodup
    apply List.Nodup.append (hnd.filter _) (hnd.filter _)
    rw [List.disjoint_left]
    intro d hd1 hd2
    have m1 := List.mem_filter.mp hd1
    have m2 := List.mem_filter.mp hd2
    exact hdisj d m1.1 ⟨m1.2, m2.2⟩
  · rw [endpointDeployments, List.mem_filter, (pySortStr_perm _).mem_iff, List.mem_append]
    simp only [pyGlobRaw, List.mem_filter, Bool.or_eq_true, Bool.not_eq_true']
    constructor
    · rintro ⟨⟨hm, hg⟩ | ⟨hm, hg⟩, hex⟩
      · exact ⟨hm, Or.inl hg, by simpa using hex⟩
      · exact ⟨hm, Or.inr hg, by simpa using hex⟩
    · rintro ⟨hm, hg | hg, hex⟩
      · exact ⟨Or.inl ⟨hm, hg⟩, by simpa using hex⟩
      · exact ⟨Or.inr ⟨hm, hg⟩, by simpa using hex⟩

set_option maxRecDepth 10000 in
/-- C9 witness: the amended theorem at a concrete endpoint with two clean
sibling deployments, yielding a duplicate-free deployment list. -/
theorem claim9_amended_witness :
    (endpointDeployments ["endpoints/online/foo/x-endpoint.yml",
        "endpoints/online/foo/blue-deployment.yml",
        "endpoints/online/foo/green-deployment.yml"]
      (pyReplace (parse_path "endpoints/online/foo/x-endpoint").2.1 "/" "/")).Nodup :=
  (claim9_amended_thm ["endpoints/online/foo/x-endpoint.yml",
      "endpoints/online/foo/blue-deployment.yml",
      "endpoints/online/foo/green-deployment.yml"]
    "endpoints/online/foo/x-endpoint" 1000).2.2.1 (by decide) (by decide)

/-- C10 counterexample: supplying the empty string as the value of
`--check-readme` parses to `False`, so there is a command-line value that
disables the check, contradicting the claim. -/
theorem claim10_counterexample : parseCheckReadme (some "") = false := rfl

/-- C10 (amended): the check is enabled iff the flag is supplied with a
non-empty value; the literal string `False` enables it, and omitting the
flag or supplying the empty string disables it (the run then always exits
with code 0). -/
theorem claim10_amended_thm :
    parseCheckReadme none = false
    ∧ parseCheckReadme (some "False") = true
    ∧ (∀ v : String, parseCheckReadme (some v) = true ↔ v ≠ "")
    ∧ (∀ (tree : List (String × String)) (rs : Nat → Nat),
        (pyMain false tree rs).exitCode = 0) := by
  refine ⟨rfl, rfl, fun v => ?_, fun tree rs => rfl⟩
  simp [parseCheckReadme, pyBool]
